import Mathlib

/-!
A verification development for the NVMe-oF TCP client
(`src/nvmeof_client`).  Python byte strings are modelled as `List Nat`
(each entry one byte), multi-byte integers are little-endian, and Python
exceptions are modelled by the `PyErr` sum type together with
`Except PyErr` results.  Where Python's `struct` module would raise on an
out-of-range field value, the model encodes the low bits (`% 256` and
friends); every call site in the client passes in-range values, and the
theorems below only instantiate such values.
-/

set_option linter.unusedVariables false
set_option maxRecDepth 8192

deriving instance DecidableEq for Except

namespace NvmeoF

/-- Little-endian encoding of a 16-bit value (struct format `<H`). -/
def le16 (n : Nat) : List Nat := [n % 256, n / 256 % 256]

/-- Little-endian encoding of a 32-bit value (struct format `<L` / `<I`). -/
def le32 (n : Nat) : List Nat :=
  [n % 256, n / 256 % 256, n / 65536 % 256, n / 16777216 % 256]

/-- Little-endian encoding of a 64-bit value (struct format `<Q`). -/
def le64 (n : Nat) : List Nat :=
  [n % 256, n / 256 % 256, n / 65536 % 256, n / 16777216 % 256,
   n / 4294967296 % 256, n / 1099511627776 % 256,
   n / 281474976710656 % 256, n / 72057594037927936 % 256]

/-- A run of zero bytes (a fresh Python `bytearray` region). -/
def zeros (n : Nat) : List Nat := List.replicate n 0

/-- Byte access `data[i]` (all modelled accesses are in range). -/
def getByte (d : List Nat) (i : Nat) : Nat := d.getD i 0

/-- Little-endian 16-bit read at offset `i` (struct `<H`). -/
def getLe16 (d : List Nat) (i : Nat) : Nat :=
  getByte d i + 256 * getByte d (i + 1)

/-- Little-endian 32-bit read at offset `i` (struct `<L`). -/
def getLe32 (d : List Nat) (i : Nat) : Nat :=
  getByte d i + 256 * getByte d (i + 1) + 65536 * getByte d (i + 2) +
    16777216 * getByte d (i + 3)

/-- The exception classes the modelled code can raise.  `valueError` is
Python's builtin `ValueError` (the library's "invalid argument" error),
`typeError` is Python's builtin `TypeError`, the remaining variants are
the library's own classes from `exceptions.py`. -/
inductive PyErr where
  | valueError
  | typeError
  | runtimeError
  | zeroDivisionError
  | connectionError
  | timeoutError
  | protocolError
  | commandError (status : Nat) (cid : Nat)
  deriving DecidableEq, Repr

/-- The dictionary returned by `ResponseParser.parse_response`
(`parsers/response.py`): completion fields plus the trailing bytes. -/
structure ParsedResponse where
  command_id : Nat
  status : Nat
  dw0 : Nat
  dw1 : Nat
  trailing : List Nat
  deriving DecidableEq, Repr

/-- `ResponseParser.parse_response` (`parsers/response.py` lines 16-64):
requires at least 16 bytes, unpacks the completion queue entry
`<LLHHHH`, raises `ValueError` on a command-id mismatch, raises
`CommandError` on a non-zero status code (bits 10:1 of STATUS), and
otherwise returns the parsed dictionary. -/
def parse_response (data : List Nat) (expected_command_id : Nat) :
    Except PyErr ParsedResponse :=
  if data.length < 16 then
    .error .valueError
  else
    let dw0 := getLe32 data 0
    let dw1 := getLe32 data 4
    let command_id := getLe16 data 12
    let status := getLe16 data 14
    if command_id ≠ expected_command_id then
      .error .valueError
    else
      let status_code := (status >>> 1) &&& 0x3FF
      if status_code ≠ 0 then
        .error (.commandError status_code command_id)
      else
        .ok ⟨command_id, status_code, dw0, dw1, data.drop 16⟩

/-- `pack_nvme_command` (`protocol/utils.py` lines 11-30): struct
`<BBHI` then zero padding to 64 bytes.  The `flags` byte is whatever the
caller passes. -/
def pack_nvme_command (opcode flags command_id : Nat) (nsid : Nat := 0) :
    List Nat :=
  [opcode % 256, flags % 256] ++ le16 command_id ++ le32 nsid ++ zeros 56

/-- `pack_identify_command` (`protocol/admin_commands.py` lines 15-49):
opcode 0x06, flags 0x40, C2H SGL of 4096 bytes with type byte 0x5A,
CDW10 = CNS. -/
def pack_identify_command (command_id cns : Nat) (nsid : Nat := 0) :
    List Nat :=
  [0x06, 0x40] ++ le16 command_id ++ le32 nsid ++ zeros 24 ++
    le32 4096 ++ [0, 0, 0, 0x5A] ++ le32 cns ++ zeros 20

/-- `pack_get_log_page_command` (`protocol/admin_commands.py` lines
52-94): opcode 0x02, flags 0x40, C2H SGL, CDW10 = LID | NUMDL<<16,
CDW11 = NUMDU. -/
def pack_get_log_page_command (command_id log_page_id data_length : Nat)
    (nsid : Nat := 0) : List Nat :=
  let numdl := data_length / 4 - 1
  [0x02, 0x40] ++ le16 command_id ++ le32 nsid ++ zeros 24 ++
    le32 data_length ++ [0, 0, 0, 0x5A] ++
    le32 (log_page_id ||| ((numdl &&& 0xFFFF) <<< 16)) ++
    le32 ((numdl >>> 16) &&& 0xFFFF) ++ zeros 16

/-- `pack_set_features_command` (`protocol/admin_commands.py` lines
97-136): opcode 0x09, flags 0x40, zero SGL, CDW10 = FID | SV<<31,
CDW11 = value. -/
def pack_set_features_command (command_id feature_id value : Nat)
    (nsid : Nat := 0) (save : Bool := false) : List Nat :=
  [0x09, 0x40] ++ le16 command_id ++ le32 nsid ++ zeros 24 ++ le64 0 ++
    le32 ((feature_id &&& 0xFF) ||| ((if save then 1 else 0) <<< 31)) ++
    le32 value ++ zeros 16

/-- `pack_get_features_command` (`protocol/admin_commands.py` lines
274-304): opcode 0x0A, flags 0x40, zero SGL, CDW10 = FID. -/
def pack_get_features_command (command_id feature_id : Nat)
    (nsid : Nat := 0) : List Nat :=
  [0x0A, 0x40] ++ le16 command_id ++ le32 nsid ++ zeros 24 ++ le64 0 ++
    le32 feature_id ++ zeros 20

/-- `pack_keep_alive_command` (`protocol/admin_commands.py` lines
201-228): opcode 0x18, flags 0x40, everything else zero. -/
def pack_keep_alive_command (command_id : Nat) : List Nat :=
  [0x18, 0x40] ++ le16 command_id ++ zeros 60

/-- `pack_async_event_request_command` (`protocol/admin_commands.py`
lines 350-381): opcode 0x0C, flags 0x40, everything else zero. -/
def pack_async_event_request_command (command_id : Nat) : List Nat :=
  [0x0C, 0x40] ++ le16 command_id ++ zeros 60

/-- `pack_nvme_read_command` (`protocol/io_commands.py` lines 15-61):
opcode 0x02, flags 0x40, C2H SGL (type 0x5A) sized
`block_count * logical_block_size`, CDW10-11 = LBA, CDW12 = NLB. -/
def pack_nvme_read_command (command_id nsid start_lba block_count : Nat)
    (logical_block_size : Nat := 512) : List Nat :=
  [0x02, 0x40] ++ le16 command_id ++ le32 nsid ++ zeros 24 ++
    le32 (block_count * logical_block_size) ++ [0, 0, 0, 0x5A] ++
    le64 start_lba ++ le32 (block_count - 1) ++ zeros 12

/-- `pack_nvme_write_command` (`protocol/io_commands.py` lines 64-110):
opcode 0x01, flags 0x40, data-out SGL (type byte 0x01) sized
`block_count * logical_block_size`, CDW10-11 = LBA, CDW12 = NLB. -/
def pack_nvme_write_command (command_id nsid start_lba block_count : Nat)
    (logical_block_size : Nat := 512) : List Nat :=
  [0x01, 0x40] ++ le16 command_id ++ le32 nsid ++ zeros 24 ++
    le32 (block_count * logical_block_size) ++ [0, 0, 0, 0x01] ++
    le64 start_lba ++ le32 (block_count - 1) ++ zeros 12

/-- `pack_nvme_flush_command` (`protocol/io_commands.py` lines
113-139): opcode 0x00, flags 0x40, zero SGL. -/
def pack_nvme_flush_command (command_id nsid : Nat) : List Nat :=
  [0x00, 0x40] ++ le16 command_id ++ le32 nsid ++ zeros 56

/-- `pack_nvme_write_zeroes_command` (`protocol/io_commands.py` lines
142-174): opcode 0x08, flags 0x40, zero SGL, CDW10-11 = LBA,
CDW12 = block_count (already 0-based at this layer). -/
def pack_nvme_write_zeroes_command
    (command_id nsid start_lba block_count : Nat) : List Nat :=
  [0x08, 0x40] ++ le16 command_id ++ le32 nsid ++ zeros 24 ++ le64 0 ++
    le64 start_lba ++ le32 block_count ++ zeros 12

/-- `pack_nvme_compare_command` (`protocol/io_commands.py` lines
177-220): opcode 0x05, flags 0x40, C2H SGL sized
`(block_count + 1) * logical_block_size`, CDW10-11 = LBA,
CDW12 = block_count. -/
def pack_nvme_compare_command (command_id nsid start_lba block_count : Nat)
    (logical_block_size : Nat := 512) : List Nat :=
  [0x05, 0x40] ++ le16 command_id ++ le32 nsid ++ zeros 24 ++
    le32 ((block_count + 1) * logical_block_size) ++ [0, 0, 0, 0x5A] ++
    le64 start_lba ++ le32 block_count ++ zeros 12

/-- `pack_nvme_write_uncorrectable_command` (`protocol/io_commands.py`
lines 223-255): opcode 0x04, flags 0x40, zero SGL, CDW10-11 = LBA,
CDW12 = block_count. -/
def pack_nvme_write_uncorrectable_command
    (command_id nsid start_lba block_count : Nat) : List Nat :=
  [0x04, 0x40] ++ le16 command_id ++ le32 nsid ++ zeros 24 ++ le64 0 ++
    le64 start_lba ++ le32 block_count ++ zeros 12

/-- `pack_nvme_reservation_register_command` (`protocol/io_commands.py`
lines 258-308): opcode 0x0D, flags 0x40, 16-byte data-out SGL (type
0x01), CDW10 = RREGA | IEKEY<<3 | CPTPL<<30. -/
def pack_nvme_reservation_register_command
    (command_id nsid reservation_action : Nat) (iekey : Bool := false)
    (cptpl : Nat := 0) : List Nat :=
  [0x0D, 0x40] ++ le16 command_id ++ le32 nsid ++ zeros 24 ++
    le32 16 ++ [0, 0, 0, 0x01] ++
    le32 ((reservation_action &&& 0x7) |||
      (if iekey then 1 <<< 3 else 0) ||| ((cptpl &&& 0x3) <<< 30)) ++
    zeros 20

/-- `pack_nvme_reservation_report_command` (`protocol/io_commands.py`
lines 311-353): opcode 0x0E, flags 0x40, C2H SGL, CDW10 = NUMD,
CDW11 = EDS bit. -/
def pack_nvme_reservation_report_command (command_id nsid : Nat)
    (data_length : Nat := 4096) (eds : Nat := 1) : List Nat :=
  [0x0E, 0x40] ++ le16 command_id ++ le32 nsid ++ zeros 24 ++
    le32 data_length ++ [0, 0, 0, 0x5A] ++
    le32 (data_length / 4 - 1) ++ le32 (eds &&& 0x1) ++ zeros 16

/-- `pack_nvme_reservation_acquire_command` (`protocol/io_commands.py`
lines 356-398): opcode 0x11, flags 0x40, 16-byte data-out SGL,
CDW10 = RACQA | RTYPE<<8. -/
def pack_nvme_reservation_acquire_command
    (command_id nsid reservation_action reservation_type : Nat) :
    List Nat :=
  [0x11, 0x40] ++ le16 command_id ++ le32 nsid ++ zeros 24 ++
    le32 16 ++ [0, 0, 0, 0x01] ++
    le32 ((reservation_action &&& 0x7) |||
      ((reservation_type &&& 0xFF) <<< 8)) ++ zeros 20

/-- `pack_nvme_reservation_release_command` (`protocol/io_commands.py`
lines 401-443): opcode 0x15, flags 0x40, 8-byte data-out SGL,
CDW10 = RRELA | RTYPE<<8. -/
def pack_nvme_reservation_release_command
    (command_id nsid reservation_action reservation_type : Nat) :
    List Nat :=
  [0x15, 0x40] ++ le16 command_id ++ le32 nsid ++ zeros 24 ++
    le32 8 ++ [0, 0, 0, 0x01] ++
    le32 ((reservation_action &&& 0x7) |||
      ((reservation_type &&& 0xFF) <<< 8)) ++ zeros 20

/-- `pack_fabric_connect_command` (`protocol/fabric_commands.py` lines
12-47): opcode 0x7F, flags 0x40, FCTYPE 0x01 at byte 4, SGL descriptor
bytes `00 04 00 00 00 00 00 01` at offset 32, CDW10 = QID<<16,
CDW11 = SQSIZE.  Note: the function has no `kato` parameter and writes
no keep-alive field. -/
def pack_fabric_connect_command (command_id : Nat) (queue_id : Nat := 0)
    (queue_size : Nat := 31) : List Nat :=
  [0x7F, 0x40] ++ le16 command_id ++ [0x01, 0, 0, 0] ++ zeros 24 ++
    [0x00, 0x04, 0x00, 0x00, 0x00, 0x00, 0x00, 0x01] ++
    le32 (queue_id <<< 16) ++ le32 queue_size ++ zeros 16

/-- `pack_fabric_property_get_command` (`protocol/fabric_commands.py`
lines 50-88): opcode 0x7F, flags 0x40, FCTYPE 0x04, zero SGL, byte 40 =
attrib (0 for 4-byte, 1 otherwise), CDW11 = offset. -/
def pack_fabric_property_get_command (command_id property_offset : Nat)
    (property_size : Nat := 4) : List Nat :=
  [0x7F, 0x40] ++ le16 command_id ++ [0x04, 0, 0, 0] ++ zeros 24 ++
    zeros 8 ++ [if property_size = 4 then 0x00 else 0x01] ++ zeros 3 ++
    le32 property_offset ++ zeros 16

/-- `pack_fabric_property_set_command` (`protocol/fabric_commands.py`
lines 91-123): opcode 0x7F, flags 0x40, FCTYPE 0x00, zero SGL,
CDW11 = offset, CDW12 = value (low 32 bits). -/
def pack_fabric_property_set_command (command_id property_offset value : Nat) :
    List Nat :=
  [0x7F, 0x40] ++ le16 command_id ++ [0x00, 0, 0, 0] ++ zeros 24 ++
    zeros 8 ++ zeros 4 ++ le32 property_offset ++
    le32 (value &&& 0xFFFFFFFF) ++ zeros 12

/-- The capsule shape asserted by the spec's §8.2: 64 bytes, flags byte
0x40 (PSDT=01b) at offset 1, and the sender's command id little-endian
at bytes 2..3. -/
def capsuleWellFormed (command_id : Nat) (capsule : List Nat) : Prop :=
  capsule.length = 64 ∧
  capsule.get? 1 = some 0x40 ∧
  capsule.get? 2 = some (command_id % 256) ∧
  capsule.get? 3 = some (command_id / 256 % 256)

/-! ### The Fabric Connect call made by `connect()` (claim C1) -/

/-- The parameter names accepted by `pack_fabric_connect_command`
(`protocol/fabric_commands.py` line 12): `command_id`, `queue_id`,
`queue_size` — and nothing else (no `**kwargs`). -/
def pack_fabric_connect_param_names : List String :=
  ["command_id", "queue_id", "queue_size"]

/-- The keyword-argument names used at the call site inside
`_send_fabric_connect` (`client.py` line 3212):
`pack_fabric_connect_command(command_id, queue_id=0, queue_size=queue_size, kato=self._kato)`. -/
def send_fabric_connect_kwarg_names : List String :=
  ["queue_id", "queue_size", "kato"]

/-- Python call semantics for the `pack_fabric_connect_command` call in
`_send_fabric_connect` (`client.py` lines 3205-3212): a keyword argument
whose name is not among the function's parameters raises `TypeError`
before the function body runs; otherwise the capsule is built with
`queue_id = 0` and the given queue size.  The `kato` value itself can
flow nowhere: the packer has no such parameter. -/
def send_fabric_connect_capsule (command_id queue_size kato : Nat) :
    Except PyErr (List Nat) :=
  if send_fabric_connect_kwarg_names.all
      (fun k => pack_fabric_connect_param_names.contains k) then
    .ok (pack_fabric_connect_command command_id 0 queue_size)
  else
    .error .typeError

/-! ### Asynchronous event request accounting (claim C2) -/

/-- The facade state that `request_async_events` reads and writes
(`client.py` lines 147-190): connectivity, the async-events-enabled
flag, the cached AERL, the outstanding AER command ids, and the admin
command-id counter. -/
structure AsyncState where
  connected : Bool
  async_events_enabled : Bool
  aerl : Option Nat
  outstanding_async_requests : List Nat
  admin_command_id_counter : Nat
  deriving DecidableEq, Repr

/-- Allocation of `n` successive admin command ids
(`_get_next_admin_command_id`, `client.py` lines 4007-4016): each call
returns the counter and advances it modulo 2^16.  Returns the allocated
ids in order together with the final counter. -/
def alloc_admin_command_ids : Nat → Nat → List Nat × Nat
  | 0, c => ([], c)
  | Nat.succ n, c =>
    let rest := alloc_admin_command_ids n ((c + 1) &&& 0xFFFF)
    (c :: rest.1, rest.2)

/-- `request_async_events` (`client.py` lines 4108-4159): raises
`RuntimeError` when disconnected or when async events are not enabled;
resolves AERL (from the cache, else from Identify Controller, here the
`controller_aerl` argument); raises `ValueError` when
`outstanding + count > AERL + 1`; otherwise submits `count` AER
capsules, appending each allocated command id to the outstanding
list. -/
def request_async_events (controller_aerl : Nat) (st : AsyncState)
    (count : Nat) : Except PyErr AsyncState :=
  if st.connected = false then
    .error .runtimeError
  else if st.async_events_enabled = false then
    .error .runtimeError
  else
    let aerl := st.aerl.getD controller_aerl
    let max_outstanding := aerl + 1
    if st.outstanding_async_requests.length + count > max_outstanding then
      .error .valueError
    else
      let alloc := alloc_admin_command_ids count st.admin_command_id_counter
      .ok { st with
            aerl := some aerl,
            outstanding_async_requests :=
              st.outstanding_async_requests ++ alloc.1,
            admin_command_id_counter := alloc.2 }

/-! ### The C2HData SUCCESS-flag discipline (claim C5)

Each command with a controller-to-host data phase contains the same
branch on the first received C2HData PDU's flags: if the SUCCESS bit
(0x08) is set but the LAST_PDU bit (0x04) is clear, `ProtocolError` is
raised; if both are set, a status-0 completion is synthesized and no RSP
PDU is read; otherwise the RSP PDU is awaited.  `C2HNext` records which
of the three continuations is taken. -/

inductive C2HNext where
  | protocolError
  | synthesizeStatus0
  | awaitResponse
  deriving DecidableEq, Repr

/-- The flags branch of `identify_controller` (`client.py` lines
528-543). -/
def identify_controller_c2h_step (flags : Nat) : C2HNext :=
  if flags &&& 0x08 ≠ 0 then
    if flags &&& 0x04 = 0 then .protocolError else .synthesizeStatus0
  else .awaitResponse

/-- The flags branch of `identify_namespace` (`client.py` lines
729-743). -/
def identify_namespace_c2h_step (flags : Nat) : C2HNext :=
  if flags &&& 0x08 ≠ 0 then
    if flags &&& 0x04 = 0 then .protocolError else .synthesizeStatus0
  else .awaitResponse

/-- The flags branch of `list_namespaces` (`client.py` lines
843-857). -/
def list_namespaces_c2h_step (flags : Nat) : C2HNext :=
  if flags &&& 0x08 ≠ 0 then
    if flags &&& 0x04 = 0 then .protocolError else .synthesizeStatus0
  else .awaitResponse

/-- The flags branch of `get_log_page` (`client.py` lines 1110-1124). -/
def get_log_page_c2h_step (flags : Nat) : C2HNext :=
  if flags &&& 0x08 ≠ 0 then
    if flags &&& 0x04 = 0 then .protocolError else .synthesizeStatus0
  else .awaitResponse

/-- The flags branch of `read_data` (`client.py` lines 1502-1517). -/
def read_data_c2h_step (flags : Nat) : C2HNext :=
  if flags &&& 0x08 ≠ 0 then
    if flags &&& 0x04 = 0 then .protocolError else .synthesizeStatus0
  else .awaitResponse

/-- The flags branch of `reservation_report` (`client.py` lines
2058-2073). -/
def reservation_report_c2h_step (flags : Nat) : C2HNext :=
  if flags &&& 0x08 ≠ 0 then
    if flags &&& 0x04 = 0 then .protocolError else .synthesizeStatus0
  else .awaitResponse

/-! ### Write flow selection (claim C6) -/

/-- One command PDU as emitted on a socket: common-header fields plus
the 64-byte capsule and any in-capsule data. -/
structure CmdPdu where
  hlen : Nat
  pdo : Nat
  plen : Nat
  capsule : List Nat
  inline_payload : List Nat
  deriving DecidableEq, Repr

/-- The two write flows of `write_data`. -/
inductive WriteFlow where
  | inlineFlow (pdu : CmdPdu)
  | r2tFlow (pdu : CmdPdu)
  deriving DecidableEq, Repr

/-- `_get_inline_data_size` (`client.py` lines 2975-2996): raises
`ProtocolError` when IOCCSZ was not negotiated (zero); otherwise
returns `ioccsz * 16 - 64` (a Python int, so the subtraction is over
ℤ). -/
def _get_inline_data_size (ioccsz : Nat) : Except PyErr Int :=
  if ioccsz = 0 then .error .protocolError
  else .ok ((ioccsz : Int) * 16 - 64)

/-- Modelled from the spec: `pack_nvme_write_command_host_data` is
imported by `client.py` (line 96) and called on the R2T path
(line 1624), but its definition is not under `src/`.  Per the spec's
SGL table ("Write with R2T (host-data, large): total length, 0,
transport-SGL (0x40-family)") and the capsule layout of §4.1, it packs
a 64-byte Write capsule whose SGL carries the total data length and a
transport SGL type byte, with no in-capsule data. -/
def pack_nvme_write_command_host_data
    (command_id nsid start_lba block_count logical_block_size
      total_length : Nat) : List Nat :=
  [0x01, 0x40] ++ le16 command_id ++ le32 nsid ++ zeros 24 ++
    le32 total_length ++ [0, 0, 0, 0x40] ++
    le64 start_lba ++ le32 (block_count - 1) ++ zeros 12

/-- The validation and flow selection of `write_data` (`client.py`
lines 1577-1643) together with the inline PDU construction of
`_send_nvme_write_pdu` (lines 3764-3807: `hlen = 72`, `pdo = 72`,
`plen = 72 + len(data)`, payload = capsule ++ data) and the R2T-path
CMD PDU of lines 1627-1640 (`hlen = 72`, `pdo = 0`, `plen = 72`, no
data).  The logical block size is the (cached) resolver result, passed
here as an argument. -/
def write_data (ioccsz logical_block_size command_id nsid lba : Nat)
    (data : List Nat) : Except PyErr WriteFlow :=
  if data.length = 0 then .error .valueError
  else if logical_block_size = 0 then .error .zeroDivisionError
  else if data.length % logical_block_size ≠ 0 then .error .valueError
  else if data.length / logical_block_size > 65536 then .error .valueError
  else
    match _get_inline_data_size ioccsz with
    | .error e => .error e
    | .ok inline_data_size =>
      let block_count := data.length / logical_block_size
      if (data.length : Int) ≤ inline_data_size then
        .ok (.inlineFlow
          ⟨72, 72, 72 + data.length,
           pack_nvme_write_command command_id nsid lba block_count
             logical_block_size,
           data⟩)
      else
        .ok (.r2tFlow
          ⟨72, 0, 72,
           pack_nvme_write_command_host_data command_id nsid lba
             block_count logical_block_size data.length,
           []⟩)

/-! ### The R2T / H2CData write flow (claim C7) -/

/-- The protocol-specific header fields of a received R2T PDU
(`client.py` lines 3110-3113). -/
structure R2TInfo where
  command_id : Nat
  ttag : Nat
  offset : Nat
  length : Nat
  deriving DecidableEq, Repr

/-- Parsing of the R2T PSH (`_handle_r2t_and_send_data`, `client.py`
lines 3107-3113): at least 16 bytes, then `<H H I I`. -/
def parse_r2t (r2t_data : List Nat) : Except PyErr R2TInfo :=
  if r2t_data.length < 16 then .error .protocolError
  else
    .ok ⟨getLe16 r2t_data 0, getLe16 r2t_data 2,
         getLe32 r2t_data 4, getLe32 r2t_data 8⟩

/-- One H2CData PDU as emitted by `_send_h2c_data_pdu` (`client.py`
lines 2998-3070): the command id (CCCID), the transfer tag from the
R2T, the data offset, the data chunk, and the LAST flag. -/
structure H2CChunk where
  cccid : Nat
  ttag : Nat
  offset : Nat
  payload : List Nat
  last : Bool
  deriving DecidableEq, Repr

/-- The chunking loop of `_handle_r2t_and_send_data` (`client.py` lines
3129-3145): while `data_sent < r2t_length`, send a chunk of
`min(remaining, maxh2cdata)` bytes at offset `r2t_offset + data_sent`,
with the LAST flag iff the chunk reaches `r2t_length`.  The loop is
expressed with explicit fuel; since every iteration sends at least one
byte when `maxh2cdata ≥ 1`, fuel `r2t_length` is enough. -/
def send_h2c_chunks (fuel maxh2cdata : Nat) (data : List Nat)
    (command_id ttag pos rem : Nat) : List H2CChunk :=
  match fuel with
  | 0 => []
  | Nat.succ f =>
    if rem = 0 then []
    else
      let chunk_size := min rem maxh2cdata
      { cccid := command_id, ttag := ttag, offset := pos,
        payload := (data.drop pos).take chunk_size,
        last := decide (rem ≤ chunk_size) } ::
        send_h2c_chunks f maxh2cdata data command_id ttag
          (pos + chunk_size) (rem - chunk_size)

/-- `_handle_r2t_and_send_data` (`client.py` lines 3072-3147) on an
already-parsed R2T: validates the R2T command id against the write's
command id, rejects a zero-length or out-of-range R2T, then emits the
chunk sequence. -/
def _handle_r2t_and_send_data (maxh2cdata command_id : Nat)
    (data : List Nat) (r2t : R2TInfo) : Except PyErr (List H2CChunk) :=
  if r2t.command_id ≠ command_id then .error .protocolError
  else if r2t.length = 0 then .error .protocolError
  else if r2t.offset + r2t.length > data.length then .error .protocolError
  else
    .ok (send_h2c_chunks r2t.length maxh2cdata data command_id r2t.ttag
      r2t.offset r2t.length)

/-- The chunks of a transfer are contiguous in ascending order starting
at the given position: each chunk begins where the previous one
ended. -/
def chunksContiguousFrom : Nat → List H2CChunk → Prop
  | _, [] => True
  | p, c :: cs => c.offset = p ∧ chunksContiguousFrom (p + c.payload.length) cs

/-- The LAST flag is set on the final chunk and on no other. -/
def lastFlagOnlyFinal : List H2CChunk → Prop
  | [] => True
  | [c] => c.last = true
  | c :: c2 :: cs => c.last = false ∧ lastFlagOnlyFinal (c2 :: cs)

/-! ### The PDU framer (claim C8) -/

/-- The named tuple returned by `unpack_pdu_header`
(`protocol/types.py` lines 222-228). -/
structure PDUHeader where
  pdu_type : Nat
  flags : Nat
  hlen : Nat
  pdo : Nat
  plen : Nat
  deriving DecidableEq, Repr

/-- `unpack_pdu_header` (`protocol/pdu.py` lines 39-68): exactly 8
bytes, 24-bit little-endian `plen`. -/
def unpack_pdu_header (d : List Nat) : Except PyErr PDUHeader :=
  if d.length ≠ 8 then .error .valueError
  else
    .ok ⟨getByte d 0, getByte d 1, getByte d 2, getByte d 3,
         getByte d 4 ||| (getByte d 5 <<< 8) ||| (getByte d 6 <<< 16)⟩

/-- `_recv_exactly` / `_receive_exact` (`client.py` lines 2965-2973):
blocking read of exactly `n` bytes; a short stream means the peer
closed the connection (`NVMeoFConnectionError`).  Returns the bytes
read and the rest of the stream. -/
def _recv_exactly (stream : List Nat) (n : Nat) :
    Except PyErr (List Nat × List Nat) :=
  if stream.length < n then .error .connectionError
  else .ok (stream.take n, stream.drop n)

/-- Python list slicing `l[i:]` for a possibly negative start index
(`remaining_data[extended_header_size:]` with `extended_header_size`
a Python int). -/
def pyDropFrom (l : List Nat) (i : Int) : List Nat :=
  if 0 ≤ i then l.drop i.toNat else l.drop (l.length - (-i).toNat)

/-- `_receive_pdu_on_socket` (`client.py` lines 2932-2955), the
receiver used for the I/O queue: read 8 header bytes, read
`plen - 8` further bytes when positive, and for C2HData (type 0x07)
return the remaining bytes after the `hlen - 8` extended-header bytes;
for every other type return all remaining bytes.  The result carries
the header, the payload, and the unread rest of the stream. -/
def _receive_pdu_on_socket (stream : List Nat) :
    Except PyErr (PDUHeader × List Nat × List Nat) :=
  match _recv_exactly stream 8 with
  | .error e => .error e
  | .ok (header_data, s1) =>
    match unpack_pdu_header header_data with
    | .error e => .error e
    | .ok header =>
      let remaining_size : Int := (header.plen : Int) - 8
      match (if 0 < remaining_size then _recv_exactly s1 remaining_size.toNat
             else .ok ([], s1)) with
      | .error e => .error e
      | .ok (remaining_data, s2) =>
        if header.pdu_type = 0x07 then
          .ok (header, pyDropFrom remaining_data ((header.hlen : Int) - 8), s2)
        else
          .ok (header, remaining_data, s2)

/-- `_receive_pdu` (`client.py` lines 3609-3657), the admin-socket
receiver: read 8 header bytes and reject an all-zero header; when
`hlen == plen > 8` (the ICReq/ICResp shape) the remaining `hlen - 8`
bytes are the extended header and are returned as the payload; for
C2HData read and discard `hlen - 8` extended-header bytes then read
`plen - hlen` payload bytes; otherwise read `plen - hlen` payload
bytes. -/
def _receive_pdu (stream : List Nat) :
    Except PyErr (PDUHeader × List Nat × List Nat) :=
  match _recv_exactly stream 8 with
  | .error e => .error e
  | .ok (header_data, s1) =>
    if header_data = List.replicate 8 0 then .error .connectionError
    else
      match unpack_pdu_header header_data with
      | .error e => .error e
      | .ok header =>
        if header.hlen = header.plen ∧ 8 < header.hlen then
          match _recv_exactly s1 (header.hlen - 8) with
          | .error e => .error e
          | .ok (remaining_header, s2) => .ok (header, remaining_header, s2)
        else if header.pdu_type = 0x07 then
          let extended_header_len : Int := (header.hlen : Int) - 8
          let data_len : Int := (header.plen : Int) - (header.hlen : Int)
          match (if 0 < extended_header_len then
                   _recv_exactly s1 extended_header_len.toNat
                 else .ok ([], s1)) with
          | .error e => .error e
          | .ok (_, s2) =>
            match (if 0 < data_len then _recv_exactly s2 data_len.toNat
                   else .ok ([], s2)) with
            | .error e => .error e
            | .ok (payload, s3) => .ok (header, payload, s3)
        else
          let data_len : Int := (header.plen : Int) - (header.hlen : Int)
          match (if 0 < data_len then _recv_exactly s1 data_len.toNat
                 else .ok ([], s1)) with
          | .error e => .error e
          | .ok (payload, s2) => .ok (header, payload, s2)

/-! ### Identify-Namespace LBA-size resolution (claim C9) -/

/-- One parsed LBA Format entry (`parsers/namespace.py` lines
196-208). -/
structure LbaFormat where
  ms : Nat
  lbads : Nat
  rp : Nat
  raw : Nat
  deriving DecidableEq, Repr

/-- `NamespaceDataParser._parse_lba_formats` (`parsers/namespace.py`
lines 178-210): the 16 four-byte entries at offsets 128..191, each
split into MS (bits 15:0), LBADS (bits 23:16) and RP (bits 25:24);
entries that would run past the buffer are skipped. -/
def _parse_lba_formats (data : List Nat) : List LbaFormat :=
  (List.range 16).filterMap (fun i =>
    let off := 128 + i * 4
    if off + 4 ≤ data.length then
      let v := getLe32 data off
      some ⟨v &&& 0xFFFF, (v >>> 16) &&& 0xFF, (v >>> 24) &&& 0x3, v⟩
    else none)

/-- The fallback scan of `_calculate_logical_block_size`
(`parsers/namespace.py` lines 237-243): the first entry with LBADS in
`[9, 16]` and a non-zero raw value wins. -/
def _lbaf_fallback : List LbaFormat → Nat
  | [] => 0
  | lbaf :: rest =>
    if (9 ≤ lbaf.lbads ∧ lbaf.lbads ≤ 16) ∧ lbaf.raw ≠ 0 then
      2 ^ lbaf.lbads
    else _lbaf_fallback rest

/-- `NamespaceDataParser._calculate_logical_block_size`
(`parsers/namespace.py` lines 212-245): use the FLBAS-indexed entry
when its LBADS lies in `[9, 16]`, otherwise fall back to the first
valid non-zero entry; zero when nothing matches. -/
def _calculate_logical_block_size (flbas : Nat)
    (lbaf_entries : List LbaFormat) : Nat :=
  let current_lba_format := flbas &&& 0xF
  let indexed :=
    if current_lba_format < lbaf_entries.length then
      let lbaf := lbaf_entries.getD current_lba_format ⟨0, 0, 0, 0⟩
      if 9 ≤ lbaf.lbads ∧ lbaf.lbads ≤ 16 then 2 ^ lbaf.lbads else 0
    else 0
  if indexed = 0 then _lbaf_fallback lbaf_entries else indexed

/-- The `logical_block_size` field produced by
`NamespaceDataParser.parse` (`parsers/namespace.py` lines 169-171):
FLBAS is byte 26. -/
def parse_logical_block_size (data : List Nat) : Nat :=
  _calculate_logical_block_size (getByte data 26) (_parse_lba_formats data)

/-- A 4096-byte Identify-Namespace fixture: all zero except byte 130,
which puts LBADS = 9 into LBAF0. -/
def lbaFixture : List Nat :=
  List.replicate 130 0 ++ 9 :: List.replicate 3965 0

/-! ### The namespace block-size resolver (claim C10) -/

/-- The possible outcomes of the `identify_namespace` call made inside
`_get_namespace_logical_block_size`: the call raised, or it returned a
dictionary whose `logical_block_size` entry is the given option
(`none` models the empty dictionary returned when no data arrived). -/
inductive NsIdentifyOutcome where
  | failed
  | parsed (lbs : Option Nat)
  deriving DecidableEq, Repr

/-- The fetch path of `_get_namespace_logical_block_size` (`client.py`
lines 3707-3729): on any exception return the 512-byte default; on
success take `logical_block_size` with default 512 and replace a zero
or greater-than-65536 value by 512. -/
def _fetch_logical_block_size : NsIdentifyOutcome → Nat
  | .failed => 512
  | .parsed lbsOpt =>
    let lbs := lbsOpt.getD 512
    if lbs = 0 ∨ 65536 < lbs then 512 else lbs

/-- `_get_namespace_logical_block_size` (`client.py` lines 3688-3729):
a cache hit with a positive cached `logical_block_size` is returned
directly (`cached.getD 0` models `cached_info.get('logical_block_size', 0)`);
every other case goes through the fetch path.  The cache state for the
requested nsid is `none` (miss) or `some cachedLbs` (hit, with the
cached dictionary's optional entry). -/
def _get_namespace_logical_block_size (cached : Option (Option Nat))
    (fetch : NsIdentifyOutcome) : Nat :=
  match cached with
  | some cachedLbs =>
    if 0 < cachedLbs.getD 0 then cachedLbs.getD 0
    else _fetch_logical_block_size fetch
  | none => _fetch_logical_block_size fetch

/-! ### Shared helper lemmas -/

/-- Allocating `n` admin command ids yields exactly `n` ids. -/
lemma alloc_admin_command_ids_length (n : Nat) :
    ∀ c, (alloc_admin_command_ids n c).1.length = n := by
  induction n with
  | zero => intro c; rfl
  | succ n ih => intro c; simp [alloc_admin_command_ids, ih]

/-! ### Claim C1 -/

/-- Claim C1 (code bug): `connect()` can never reach the
connected-admin state, and the constructor-supplied `kato` is never
advertised.  `_send_fabric_connect` (`client.py` line 3212) calls
`pack_fabric_connect_command(command_id, queue_id=0,
queue_size=queue_size, kato=self._kato)`, but the function
(`protocol/fabric_commands.py` line 12) accepts only `command_id`,
`queue_id` and `queue_size`, so Python raises `TypeError` for every
`kato` value (including the default 0) before any bytes are sent;
`connect()` converts this to `NVMeoFConnectionError` and
`is_connected` stays false.  Moreover the packed Connect capsule has no
keep-alive field at all: CDW12..CDW15 (bytes 48..63) are always
zero. -/
theorem c1_connect_kato_typeerror (command_id queue_size kato : Nat) :
    send_fabric_connect_capsule command_id queue_size kato =
      Except.error PyErr.typeError ∧
    (pack_fabric_connect_command command_id 0 queue_size).drop 48 =
      List.replicate 16 0 := by
  have h : send_fabric_connect_kwarg_names.all
      (fun k => pack_fabric_connect_param_names.contains k) = false := by
    decide
  exact ⟨by simp only [send_fabric_connect_capsule, h, Bool.false_eq_true,
    if_false], rfl⟩

/-! ### Claim C2 -/

/-- Claim C2 counterexample: on a connected facade with AERL = 2, async
events enabled and no outstanding AER requests (admin counter at 5),
`request_async_events(3)` does not raise `InvalidArgument` — the guard
is `outstanding + count > AERL + 1` and `0 + 3 > 3` is false — so it
succeeds and records three outstanding command ids; the subsequent
`request_async_events(2)` is what raises `ValueError`. -/
theorem c2_counterexample :
    request_async_events 2
        ⟨true, true, some 2, [], 5⟩ 3 =
      Except.ok ⟨true, true, some 2, [5, 6, 7], 8⟩ ∧
    request_async_events 2
        ⟨true, true, some 2, [5, 6, 7], 8⟩ 2 =
      Except.error PyErr.valueError := by
  decide

/-- Claim C2 (amended): on a connected facade with AERL = 2, after
`enable_async_events()` and with no outstanding AER requests,
`request_async_events(4)` raises `InvalidArgument` (`ValueError`, since
`0 + 4 > 2 + 1`), and `request_async_events(3)` succeeds, recording
three outstanding AER command IDs. -/
theorem c2_aer_accounting (controller_aerl : Nat) (st : AsyncState)
    (hconn : st.connected = true)
    (hen : st.async_events_enabled = true)
    (haerl : st.aerl = some 2)
    (hout : st.outstanding_async_requests = []) :
    request_async_events controller_aerl st 4 =
      Except.error PyErr.valueError ∧
    request_async_events controller_aerl st 3 =
      Except.ok { st with
        aerl := some 2,
        outstanding_async_requests :=
          (alloc_admin_command_ids 3 st.admin_command_id_counter).1,
        admin_command_id_counter :=
          (alloc_admin_command_ids 3 st.admin_command_id_counter).2 } ∧
    (alloc_admin_command_ids 3 st.admin_command_id_counter).1.length = 3 := by
  refine ⟨?_, ?_, alloc_admin_command_ids_length 3 _⟩ <;>
    simp [request_async_events, hconn, hen, haerl, hout]

/-- Witness for `c2_aer_accounting` at a concrete facade state. -/
theorem c2_aer_accounting_witness :
    request_async_events 0 ⟨true, true, some 2, [], 1⟩ 4 =
      Except.error PyErr.valueError ∧
    request_async_events 0 ⟨true, true, some 2, [], 1⟩ 3 =
      Except.ok { (⟨true, true, some 2, [], 1⟩ : AsyncState) with
        aerl := some 2,
        outstanding_async_requests := (alloc_admin_command_ids 3 1).1,
        admin_command_id_counter := (alloc_admin_command_ids 3 1).2 } := by
  have h := c2_aer_accounting 0 ⟨true, true, some 2, [], 1⟩ rfl rfl rfl rfl
  exact ⟨h.1, h.2.1⟩

/-! ### Claim C3 -/

/-- Claim C3 counterexample: a 16-byte completion queue entry whose CID
field (bytes 12..13) is 2, parsed with expected command id 1, raises
`ValueError` — not the `ProtocolError` variant the claim names. -/
theorem c3_counterexample :
    parse_response (List.replicate 12 0 ++ [2, 0, 0, 0]) 1 =
      Except.error PyErr.valueError ∧
    parse_response (List.replicate 12 0 ++ [2, 0, 0, 0]) 1 ≠
      Except.error PyErr.protocolError := by
  decide

/-- Claim C3 (amended): for every byte string of length at least 16 and
every expected command id, `parse_response` with a mismatching CID
raises `ValueError` (Python's builtin, the library's invalid-argument
error class) — not `ProtocolError`. -/
theorem c3_cid_mismatch_valueerror (data : List Nat) (expected : Nat)
    (hlen : 16 ≤ data.length) (hcid : getLe16 data 12 ≠ expected) :
    parse_response data expected = Except.error PyErr.valueError := by
  have h1 : ¬ data.length < 16 := by omega
  simp [parse_response, h1, hcid]

/-- Witness for `c3_cid_mismatch_valueerror` at a concrete entry. -/
theorem c3_cid_mismatch_valueerror_witness :
    16 ≤ (List.replicate 12 0 ++ [3, 0, 0, 0]).length ∧
    getLe16 (List.replicate 12 0 ++ [3, 0, 0, 0]) 12 ≠ 1 ∧
    parse_response (List.replicate 12 0 ++ [3, 0, 0, 0]) 1 =
      Except.error PyErr.valueError :=
  ⟨by decide, by decide,
   c3_cid_mismatch_valueerror _ 1 (by decide) (by decide)⟩

/-! ### Claim C4 -/

/-- Claim C4 counterexample: the generic `pack_nvme_command` path used
by `send_command` — `_send_command_pdu` (`client.py` line 3571) calls
`pack_nvme_command(opcode, 0, command_id, nsid)` — produces a capsule
whose byte at offset 1 is 0x00, not the 0x40 (PSDT=01b) the claim
asserts for every capsule-packing function. -/
theorem c4_counterexample :
    (pack_nvme_command 0x06 0 1 0).get? 1 = some 0 ∧
    (0 : Nat) ≠ 0x40 ∧
    (pack_nvme_command 0x06 0 1 0).length = 64 := by
  decide

/-- Claim C4 (amended): every specific capsule packer (identify, get
log page, set/get features, keep alive, async event request, read,
write, flush, write zeroes, compare, write uncorrectable, the four
reservation commands, fabric connect and property get/set, and the
spec-modelled host-data write packer) produces a 64-byte capsule with
flags byte 0x40 at offset 1 and the caller's command id little-endian
at bytes 2..3; the generic `pack_nvme_command` produces 64 bytes with
the command id at bytes 2..3, but its flags byte is whatever the
caller passes — 0 on the `send_command` path. -/
theorem c4_capsule_shape (command_id nsid a b c d : Nat)
    (sv iekey : Bool) :
    capsuleWellFormed command_id (pack_identify_command command_id a nsid) ∧
    capsuleWellFormed command_id
      (pack_get_log_page_command command_id a b nsid) ∧
    capsuleWellFormed command_id
      (pack_set_features_command command_id a b nsid sv) ∧
    capsuleWellFormed command_id
      (pack_get_features_command command_id a nsid) ∧
    capsuleWellFormed command_id (pack_keep_alive_command command_id) ∧
    capsuleWellFormed command_id
      (pack_async_event_request_command command_id) ∧
    capsuleWellFormed command_id
      (pack_nvme_read_command command_id nsid a b c) ∧
    capsuleWellFormed command_id
      (pack_nvme_write_command command_id nsid a b c) ∧
    capsuleWellFormed command_id
      (pack_nvme_flush_command command_id nsid) ∧
    capsuleWellFormed command_id
      (pack_nvme_write_zeroes_command command_id nsid a b) ∧
    capsuleWellFormed command_id
      (pack_nvme_compare_command command_id nsid a b c) ∧
    capsuleWellFormed command_id
      (pack_nvme_write_uncorrectable_command command_id nsid a b) ∧
    capsuleWellFormed command_id
      (pack_nvme_reservation_register_command command_id nsid a iekey b) ∧
    capsuleWellFormed command_id
      (pack_nvme_reservation_report_command command_id nsid a b) ∧
    capsuleWellFormed command_id
      (pack_nvme_reservation_acquire_command command_id nsid a b) ∧
    capsuleWellFormed command_id
      (pack_nvme_reservation_release_command command_id nsid a b) ∧
    capsuleWellFormed command_id
      (pack_fabric_connect_command command_id a b) ∧
    capsuleWellFormed command_id
      (pack_fabric_property_get_command command_id a b) ∧
    capsuleWellFormed command_id
      (pack_fabric_property_set_command command_id a b) ∧
    capsuleWellFormed command_id
      (pack_nvme_write_command_host_data command_id nsid a b c d) ∧
    ((pack_nvme_command a b command_id nsid).length = 64 ∧
     (pack_nvme_command a b command_id nsid).get? 1 = some (b % 256) ∧
     (pack_nvme_command a b command_id nsid).get? 2 =
       some (command_id % 256) ∧
     (pack_nvme_command a b command_id nsid).get? 3 =
       some (command_id / 256 % 256)) := by
  simp only [capsuleWellFormed]
  repeat' apply And.intro
  all_goals rfl

/-! ### Claim C5 -/

/-- Claim C5: in every controller-to-host data command (Identify
Controller, Identify Namespace, Identify NS-list, Get Log Page, Read,
Reservation Report), a first C2HData PDU whose flags have the SUCCESS
bit (0x08) set but the LAST_PDU bit (0x04) clear makes the operation
raise `ProtocolError`; with both bits set, a status-0 completion is
synthesized and no RSP PDU is awaited. -/
theorem c5_success_flag_discipline (flags : Nat) :
    (flags &&& 0x08 ≠ 0 → flags &&& 0x04 = 0 →
      identify_controller_c2h_step flags = C2HNext.protocolError ∧
      identify_namespace_c2h_step flags = C2HNext.protocolError ∧
      list_namespaces_c2h_step flags = C2HNext.protocolError ∧
      get_log_page_c2h_step flags = C2HNext.protocolError ∧
      read_data_c2h_step flags = C2HNext.protocolError ∧
      reservation_report_c2h_step flags = C2HNext.protocolError) ∧
    (flags &&& 0x08 ≠ 0 → flags &&& 0x04 ≠ 0 →
      identify_controller_c2h_step flags = C2HNext.synthesizeStatus0 ∧
      identify_namespace_c2h_step flags = C2HNext.synthesizeStatus0 ∧
      list_namespaces_c2h_step flags = C2HNext.synthesizeStatus0 ∧
      get_log_page_c2h_step flags = C2HNext.synthesizeStatus0 ∧
      read_data_c2h_step flags = C2HNext.synthesizeStatus0 ∧
      reservation_report_c2h_step flags = C2HNext.synthesizeStatus0) := by
  constructor <;> intro h8 h4 <;>
    simp [identify_controller_c2h_step, identify_namespace_c2h_step,
      list_namespaces_c2h_step, get_log_page_c2h_step, read_data_c2h_step,
      reservation_report_c2h_step, h8, h4]

/-- Witness for `c5_success_flag_discipline`: flags 0x08
(SUCCESS without LAST) and flags 0x0C (SUCCESS with LAST). -/
theorem c5_success_flag_discipline_witness :
    identify_controller_c2h_step 0x08 = C2HNext.protocolError ∧
    read_data_c2h_step 0x0C = C2HNext.synthesizeStatus0 :=
  ⟨((c5_success_flag_discipline 0x08).1 (by decide) (by decide)).1,
   (((c5_success_flag_discipline 0x0C).2 (by decide)
      (by decide)).2.2.2.2).1⟩

/-! ### Claim C10 -/

/-- Claim C10: `_get_namespace_logical_block_size` is total (the model
is a plain function: every `identify_namespace` outcome, including a
raised exception, is mapped to a result, mirroring the blanket
`except Exception` handler) and always returns a strictly positive
block size; on an uncached resolution an `identify_namespace` failure,
a missing entry, and a parsed value of 0 or above 65536 all yield the
512-byte default. -/
theorem c10_block_size_resolver (cached : Option (Option Nat))
    (fetch : NsIdentifyOutcome) (lbs : Nat) :
    0 < _get_namespace_logical_block_size cached fetch ∧
    _get_namespace_logical_block_size none NsIdentifyOutcome.failed = 512 ∧
    _get_namespace_logical_block_size none
      (NsIdentifyOutcome.parsed none) = 512 ∧
    (lbs = 0 ∨ 65536 < lbs →
      _get_namespace_logical_block_size none
        (NsIdentifyOutcome.parsed (some lbs)) = 512) := by
  refine ⟨?_, rfl, rfl, ?_⟩
  · rcases cached with _ | cachedLbs
    · rcases fetch with _ | lbsOpt
      · decide
      · simp only [_get_namespace_logical_block_size,
          _fetch_logical_block_size]
        split
        · omega
        · rcases lbsOpt with _ | v
          · simp_all
          · simp_all; omega
    · simp only [_get_namespace_logical_block_size]
      split
      · omega
      · rcases fetch with _ | lbsOpt
        · decide
        · simp only [_fetch_logical_block_size]
          split
          · omega
          · rcases lbsOpt with _ | v
            · simp_all
            · simp_all; omega
  · intro h
    simp only [_get_namespace_logical_block_size, _fetch_logical_block_size,
      Option.getD_some]
    rcases h with h | h <;> simp [h]

/-- Witness for `c10_block_size_resolver`: a cache miss whose fetch
parses a zero block size resolves to 512. -/
theorem c10_block_size_resolver_witness :
    0 < _get_namespace_logical_block_size none NsIdentifyOutcome.failed ∧
    _get_namespace_logical_block_size none
      (NsIdentifyOutcome.parsed (some 0)) = 512 :=
  ⟨(c10_block_size_resolver none NsIdentifyOutcome.failed 0).1,
   (c10_block_size_resolver none NsIdentifyOutcome.failed 0).2.2.2
     (Or.inl rfl)⟩

/-! ### Claim C6 -/

/-- Claim C6: with negotiated `ioccsz > 0` and a valid buffer (nonempty,
a multiple of the logical block size, at most 65536 blocks),
`write_data` chooses the R2T flow (host-data capsule, CMD PDU with no
inline data) exactly when `len(data) > ioccsz * 16 - 64` (computed over
ℤ, as in Python); otherwise it emits the single inline CMD PDU with
`hlen = pdo = 72` and `plen = 72 + len(data)` carrying the capsule and
the data. -/
theorem c6_inline_r2t_selection
    (ioccsz logical_block_size command_id nsid lba : Nat)
    (data : List Nat)
    (hioccsz : 0 < ioccsz) (hlbs : 0 < logical_block_size)
    (hne : data ≠ [])
    (hmod : data.length % logical_block_size = 0)
    (hmax : data.length / logical_block_size ≤ 65536) :
    write_data ioccsz logical_block_size command_id nsid lba data =
      (if (data.length : Int) > (ioccsz : Int) * 16 - 64 then
        Except.ok (WriteFlow.r2tFlow
          ⟨72, 0, 72,
           pack_nvme_write_command_host_data command_id nsid lba
             (data.length / logical_block_size) logical_block_size
             data.length,
           []⟩)
      else
        Except.ok (WriteFlow.inlineFlow
          ⟨72, 72, 72 + data.length,
           pack_nvme_write_command command_id nsid lba
             (data.length / logical_block_size) logical_block_size,
           data⟩)) := by
  have h0 : ¬ data.length = 0 := by
    simpa [List.length_eq_zero] using hne
  have h1 : ¬ logical_block_size = 0 := by omega
  have h3 : ¬ data.length / logical_block_size > 65536 := by omega
  have h4 : ¬ ioccsz = 0 := by omega
  simp only [write_data, _get_inline_data_size, h0, h1, h3, h4, hmod,
    if_false, ite_false, ne_eq, not_true_eq_false, not_false_eq_true,
    ite_true, if_true, gt_iff_lt]
  by_cases hle : (data.length : Int) ≤ (ioccsz : Int) * 16 - 64
  · rw [if_pos hle, if_neg (by omega)]
  · rw [if_neg hle, if_pos (by omega)]

/-- Witness for `c6_inline_r2t_selection`: a 512-byte write with
`ioccsz = 320` (inline threshold 5056) takes the inline flow. -/
theorem c6_inline_r2t_selection_witness :
    0 < 320 ∧ 0 < 512 ∧
    (List.replicate 512 7).length % 512 = 0 ∧
    (List.replicate 512 7).length / 512 ≤ 65536 ∧
    write_data 320 512 9 1 0 (List.replicate 512 7) =
      (if ((List.replicate 512 7).length : Int) >
          (320 : Int) * 16 - 64 then
        Except.ok (WriteFlow.r2tFlow
          ⟨72, 0, 72,
           pack_nvme_write_command_host_data 9 1 0
             ((List.replicate 512 7).length / 512) 512
             (List.replicate 512 7).length,
           []⟩)
      else
        Except.ok (WriteFlow.inlineFlow
          ⟨72, 72, 72 + (List.replicate 512 7).length,
           pack_nvme_write_command 9 1 0
             ((List.replicate 512 7).length / 512) 512,
           List.replicate 512 7⟩)) :=
  ⟨by decide, by decide, by simp, by simp,
   c6_inline_r2t_selection 320 512 9 1 0 (List.replicate 512 7)
     (by decide) (by decide) (by simp) (by simp) (by simp)⟩

/-! ### Claim C7 -/

/-- A transfer of zero remaining bytes emits no chunks. -/
lemma send_h2c_chunks_zero (fuel maxh : Nat) (data : List Nat)
    (command_id ttag pos : Nat) :
    send_h2c_chunks fuel maxh data command_id ttag pos 0 = [] := by
  cases fuel <;> simp [send_h2c_chunks]

/-- With fuel and remaining length both positive, at least one chunk is
emitted. -/
lemma send_h2c_chunks_ne_nil (fuel maxh : Nat) (data : List Nat)
    (command_id ttag pos rem : Nat) (hf : 0 < fuel) (hrem : 0 < rem) :
    send_h2c_chunks fuel maxh data command_id ttag pos rem ≠ [] := by
  cases fuel with
  | zero => omega
  | succ f =>
    simp only [send_h2c_chunks]
    rw [if_neg (by omega)]
    simp

/-- The combined specification of the chunking loop, by induction on
the fuel: the chunk lengths sum to the remaining length, every chunk is
nonempty, bounded by `maxh2cdata`, carries the command id and transfer
tag, and slices the data buffer at its own offset; the chunks are
contiguous from the start position; and the LAST flag marks exactly the
final chunk. -/
lemma send_h2c_chunks_spec (maxh : Nat) (data : List Nat)
    (command_id ttag : Nat) (hmaxh : 0 < maxh) :
    ∀ fuel pos rem, rem ≤ fuel → pos + rem ≤ data.length →
      ((send_h2c_chunks fuel maxh data command_id ttag pos rem).map
          (fun c => c.payload.length)).sum = rem ∧
      (∀ c ∈ send_h2c_chunks fuel maxh data command_id ttag pos rem,
        0 < c.payload.length ∧ c.payload.length ≤ maxh ∧
        c.cccid = command_id ∧ c.ttag = ttag ∧
        c.payload = (data.drop c.offset).take c.payload.length) ∧
      chunksContiguousFrom pos
        (send_h2c_chunks fuel maxh data command_id ttag pos rem) ∧
      (0 < rem → lastFlagOnlyFinal
        (send_h2c_chunks fuel maxh data command_id ttag pos rem)) := by
  intro fuel
  induction fuel with
  | zero =>
    intro pos rem h1 h2
    have hrem : rem = 0 := by omega
    subst hrem
    refine ⟨rfl, ?_, trivial, fun h => absurd h (by omega)⟩
    intro c hc
    simp [send_h2c_chunks] at hc
  | succ f ih =>
    intro pos rem hle hlen
    by_cases h0 : rem = 0
    · subst h0
      refine ⟨?_, ?_, ?_, fun h => absurd h (by omega)⟩
      · simp [send_h2c_chunks]
      · intro c hc; simp [send_h2c_chunks] at hc
      · simp [send_h2c_chunks, chunksContiguousFrom]
    · have hunf : send_h2c_chunks (f + 1) maxh data command_id ttag pos rem =
          { cccid := command_id, ttag := ttag, offset := pos,
            payload := (data.drop pos).take (min rem maxh),
            last := decide (rem ≤ min rem maxh) } ::
          send_h2c_chunks f maxh data command_id ttag (pos + min rem maxh)
            (rem - min rem maxh) := by
        simp [send_h2c_chunks, h0]
      have hplen : ((data.drop pos).take (min rem maxh)).length =
          min rem maxh := by
        simp only [List.length_take, List.length_drop]
        omega
      obtain ⟨ihsum, ihmem, ihcontig, ihlast⟩ :=
        ih (pos + min rem maxh) (rem - min rem maxh) (by omega) (by omega)
      refine ⟨?_, ?_, ?_, ?_⟩
      · rw [hunf]
        simp only [List.map_cons, List.sum_cons, ihsum, hplen]
        omega
      · intro c hc
        rw [hunf] at hc
        rcases List.mem_cons.mp hc with rfl | hc'
        · refine ⟨by rw [hplen]; omega, by rw [hplen]; omega, rfl, rfl, ?_⟩
          show (data.drop pos).take (min rem maxh) =
            (data.drop pos).take (((data.drop pos).take (min rem maxh)).length)
          rw [hplen]
        · exact ihmem c hc'
      · rw [hunf]
        refine ⟨rfl, ?_⟩
        show chunksContiguousFrom
          (pos + ((data.drop pos).take (min rem maxh)).length) _
        rw [hplen]
        exact ihcontig
      · intro _
        rw [hunf]
        by_cases hfin : rem ≤ min rem maxh
        · have hz : rem - min rem maxh = 0 := by omega
          rw [hz, send_h2c_chunks_zero]
          simp [lastFlagOnlyFinal, hfin]
        · have hne : send_h2c_chunks f maxh data command_id ttag
              (pos + min rem maxh) (rem - min rem maxh) ≠ [] :=
            send_h2c_chunks_ne_nil f maxh data command_id ttag
              (pos + min rem maxh) (rem - min rem maxh)
              (by omega) (by omega)
          obtain ⟨c2, cs, hcons⟩ := List.exists_cons_of_ne_nil hne
          rw [hcons]
          refine ⟨by simp [hfin], ?_⟩
          have hrec := ihlast (by omega)
          rw [hcons] at hrec
          exact hrec

/-- Claim C7: for every accepted R2T reply (matching command id,
positive length, in range) and every negotiated `maxh2cdata > 0`, the
emitted H2CData chunks sum to `r2t_length`, none exceeds `maxh2cdata`,
they cover `[r2t_offset, r2t_offset + r2t_length)` contiguously in
ascending order, each carries the command's CID and the R2T's transfer
tag, and the LAST flag is set on exactly the final chunk. -/
theorem c7_r2t_coverage (maxh2cdata command_id : Nat) (data : List Nat)
    (r2t : R2TInfo) (hmaxh : 0 < maxh2cdata)
    (hcid : r2t.command_id = command_id)
    (hlen : 0 < r2t.length)
    (hrange : r2t.offset + r2t.length ≤ data.length) :
    ∃ chunks,
      _handle_r2t_and_send_data maxh2cdata command_id data r2t =
        Except.ok chunks ∧
      chunks ≠ [] ∧
      (chunks.map (fun c => c.payload.length)).sum = r2t.length ∧
      (∀ c ∈ chunks, 0 < c.payload.length ∧
        c.payload.length ≤ maxh2cdata ∧
        c.cccid = command_id ∧ c.ttag = r2t.ttag ∧
        c.payload = (data.drop c.offset).take c.payload.length) ∧
      chunksContiguousFrom r2t.offset chunks ∧
      lastFlagOnlyFinal chunks := by
  obtain ⟨hsum, hmem, hcontig, hlast⟩ :=
    send_h2c_chunks_spec maxh2cdata data command_id r2t.ttag hmaxh
      r2t.length r2t.offset r2t.length (le_refl _) hrange
  refine ⟨_, ?_, ?_, hsum, hmem, hcontig, hlast hlen⟩
  · unfold _handle_r2t_and_send_data
    rw [if_neg (by simp [hcid]), if_neg (by omega), if_neg (by omega)]
  · exact send_h2c_chunks_ne_nil r2t.length maxh2cdata data command_id
      r2t.ttag r2t.offset r2t.length (by omega) hlen

/-- Witness for `c7_r2t_coverage`: an 8-byte buffer, `maxh2cdata = 3`,
and an accepted R2T `{ttag = 7, offset = 1, length = 6}` for command
id 1 (two 3-byte chunks). -/
theorem c7_r2t_coverage_witness :
    ∃ chunks,
      _handle_r2t_and_send_data 3 1 [0, 1, 2, 3, 4, 5, 6, 7]
          ⟨1, 7, 1, 6⟩ =
        Except.ok chunks ∧
      chunks ≠ [] ∧
      (chunks.map (fun c => c.payload.length)).sum = 6 ∧
      (∀ c ∈ chunks, 0 < c.payload.length ∧ c.payload.length ≤ 3 ∧
        c.cccid = 1 ∧ c.ttag = 7 ∧
        c.payload =
          (([0, 1, 2, 3, 4, 5, 6, 7] : List Nat).drop c.offset).take
            c.payload.length) ∧
      chunksContiguousFrom 1 chunks ∧
      lastFlagOnlyFinal chunks :=
  c7_r2t_coverage 3 1 [0, 1, 2, 3, 4, 5, 6, 7] ⟨1, 7, 1, 6⟩
    (by decide) rfl (by decide) (by decide)

/-! ### Claim C9 -/

/-- The fallback scan returns `2 ^ LBADS` of the first entry that has
LBADS in `[9, 16]` and a non-zero raw value. -/
lemma lbaf_fallback_first (l : List LbaFormat) :
    ∀ j ej, l.get? j = some ej →
      9 ≤ ej.lbads → ej.lbads ≤ 16 → ej.raw ≠ 0 →
      (∀ k ek, k < j → l.get? k = some ek →
        ¬(9 ≤ ek.lbads ∧ ek.lbads ≤ 16 ∧ ek.raw ≠ 0)) →
      _lbaf_fallback l = 2 ^ ej.lbads := by
  induction l with
  | nil => intro j ej h; simp at h
  | cons a rest ih =>
    intro j ej hget h9 h16 hraw hmin
    cases j with
    | zero =>
      simp only [List.get?_cons_zero, Option.some.injEq] at hget
      subst hget
      simp only [_lbaf_fallback]
      rw [if_pos ⟨⟨h9, h16⟩, hraw⟩]
    | succ j' =>
      have hna : ¬(9 ≤ a.lbads ∧ a.lbads ≤ 16 ∧ a.raw ≠ 0) :=
        hmin 0 a (Nat.succ_pos _) rfl
      simp only [List.get?_cons_succ] at hget
      simp only [_lbaf_fallback]
      rw [if_neg (by tauto)]
      exact ih j' ej hget h9 h16 hraw
        (fun k ek hk hg => hmin (k + 1) ek (by omega) hg)

/-- Claim C9: for a 4096-byte Identify-Namespace structure, when the
LBAF entry indexed by `FLBAS & 0xF` has LBADS in `[9, 16]` the parsed
`logical_block_size` is `2 ^ LBADS` of that entry; when it is out of
range, the parsed value is `2 ^ LBADS` of the first LBAF entry (in
index order) whose raw value is non-zero and whose LBADS lies in
`[9, 16]`. -/
theorem c9_lba_size_fallback (data : List Nat)
    (hlen : data.length = 4096) :
    (∀ e, (_parse_lba_formats data).get? (getByte data 26 &&& 0xF) =
        some e →
      9 ≤ e.lbads → e.lbads ≤ 16 →
      parse_logical_block_size data = 2 ^ e.lbads) ∧
    (∀ e j ej,
      (_parse_lba_formats data).get? (getByte data 26 &&& 0xF) = some e →
      ¬(9 ≤ e.lbads ∧ e.lbads ≤ 16) →
      (_parse_lba_formats data).get? j = some ej →
      9 ≤ ej.lbads → ej.lbads ≤ 16 → ej.raw ≠ 0 →
      (∀ k ek, k < j → (_parse_lba_formats data).get? k = some ek →
        ¬(9 ≤ ek.lbads ∧ ek.lbads ≤ 16 ∧ ek.raw ≠ 0)) →
      parse_logical_block_size data = 2 ^ ej.lbads) := by
  constructor
  · intro e hget h9 h16
    have hlt : getByte data 26 &&& 0xF < (_parse_lba_formats data).length :=
      (List.get?_eq_some.mp hget).1
    have hgd : (_parse_lba_formats data).getD (getByte data 26 &&& 0xF)
        ⟨0, 0, 0, 0⟩ = e := by
      rw [List.getD_eq_getElem?_getD, ← List.get?_eq_getElem?, hget]; rfl
    have h2 : (2 : Nat) ^ e.lbads ≠ 0 := by positivity
    simp only [parse_logical_block_size, _calculate_logical_block_size]
    rw [hgd, if_pos hlt,
      if_pos (show 9 ≤ e.lbads ∧ e.lbads ≤ 16 from ⟨h9, h16⟩), if_neg h2]
  · intro e j ej hget hnot hgetj h9 h16 hraw hmin
    have hlt : getByte data 26 &&& 0xF < (_parse_lba_formats data).length :=
      (List.get?_eq_some.mp hget).1
    have hgd : (_parse_lba_formats data).getD (getByte data 26 &&& 0xF)
        ⟨0, 0, 0, 0⟩ = e := by
      rw [List.getD_eq_getElem?_getD, ← List.get?_eq_getElem?, hget]; rfl
    simp only [parse_logical_block_size, _calculate_logical_block_size]
    rw [hgd, if_pos hlt, if_neg hnot, if_pos rfl]
    exact lbaf_fallback_first (_parse_lba_formats data) j ej hgetj h9 h16
      hraw hmin

/-- Witness for `c9_lba_size_fallback`: on `lbaFixture`, FLBAS is 0,
the indexed entry LBAF0 has LBADS = 9, and the parsed block size is
512. -/
theorem c9_lba_size_fallback_witness :
    lbaFixture.length = 4096 ∧
    (_parse_lba_formats lbaFixture).get?
      (getByte lbaFixture 26 &&& 0xF) = some ⟨0, 9, 0, 589824⟩ ∧
    parse_logical_block_size lbaFixture = 512 := by
  have hlen : lbaFixture.length = 4096 := by
    rw [lbaFixture]
    simp only [List.length_append, List.length_cons, List.length_replicate]
  have hpf : _parse_lba_formats lbaFixture =
      ⟨0, 9, 0, 589824⟩ :: List.replicate 15 ⟨0, 0, 0, 0⟩ := by
    simp only [_parse_lba_formats, hlen]
    decide
  have hb : getByte lbaFixture 26 &&& 0xF = 0 := by decide
  have hget : (_parse_lba_formats lbaFixture).get?
      (getByte lbaFixture 26 &&& 0xF) = some ⟨0, 9, 0, 589824⟩ := by
    rw [hpf, hb]; rfl
  refine ⟨hlen, hget, ?_⟩
  have h := (c9_lba_size_fallback lbaFixture hlen).1
    ⟨0, 9, 0, 589824⟩ hget (by decide) (by decide)
  simpa using h

/-! ### Claim C8 -/

/-- Claim C8 counterexample: a well-formed RSP PDU
(`type = 5, hlen = 24, plen = 24` followed by its 16-byte completion
entry, the wire shape produced for every completion) makes both
receivers return a 16-byte payload, while `plen - hlen = 0`; so "for
every other PDU type, exactly `plen - hlen` bytes" fails for both
implementations. -/
theorem c8_counterexample :
    _receive_pdu ([5, 0, 24, 0, 24, 0, 0, 0] ++ List.replicate 16 1) =
      Except.ok (⟨5, 0, 24, 0, 24⟩, List.replicate 16 1, []) ∧
    _receive_pdu_on_socket
        ([5, 0, 24, 0, 24, 0, 0, 0] ++ List.replicate 16 1) =
      Except.ok (⟨5, 0, 24, 0, 24⟩, List.replicate 16 1, []) ∧
    (List.replicate 16 1).length = 16 ∧ (24 : Nat) - 24 = 0 := by
  decide

/-- Reading `n ≤ l.length` bytes from the stream `l ++ r` yields
`l.take n` and leaves `l.drop n ++ r`. -/
lemma recv_exactly_append (l r : List Nat) (n : Nat) (hn : n ≤ l.length) :
    _recv_exactly (l ++ r) n = Except.ok (l.take n, l.drop n ++ r) := by
  unfold _recv_exactly
  rw [if_neg (by simp only [List.length_append]; omega),
    List.take_append_of_le_length hn, List.drop_append_of_le_length hn]

/-- What `_receive_pdu_on_socket` returns on a well-formed single-PDU
stream: the parsed header, then for C2HData the bytes after the
extended header and for every other type all `plen - 8` remaining
bytes. -/
lemma receive_pdu_on_socket_framing (t f hlen pdo p0 p1 p2 : Nat)
    (body rest : List Nat) (plen : Nat)
    (hplen : plen = p0 ||| (p1 <<< 8) ||| (p2 <<< 16))
    (hh8 : 8 ≤ hlen) (hhp : hlen ≤ plen)
    (hbody : body.length = plen - 8) :
    _receive_pdu_on_socket
        ([t, f, hlen, pdo, p0, p1, p2, 0] ++ (body ++ rest)) =
      Except.ok (⟨t, f, hlen, pdo, plen⟩,
        (if t = 7 then body.drop (hlen - 8) else body), rest) := by
  have hrecv8 : _recv_exactly
      ([t, f, hlen, pdo, p0, p1, p2, 0] ++ (body ++ rest)) 8 =
      Except.ok ([t, f, hlen, pdo, p0, p1, p2, 0], body ++ rest) := by
    simpa using recv_exactly_append [t, f, hlen, pdo, p0, p1, p2, 0]
      (body ++ rest) 8 (by simp)
  have hunpack : unpack_pdu_header [t, f, hlen, pdo, p0, p1, p2, 0] =
      Except.ok ⟨t, f, hlen, pdo, plen⟩ := by
    unfold unpack_pdu_header
    rw [if_neg (by simp)]
    rw [hplen]
    rfl
  simp only [_receive_pdu_on_socket, hrecv8, hunpack]
  by_cases hp8 : 8 < plen
  · have hpos : (0 : Int) < (plen : Int) - 8 := by omega
    have htn : ((plen : Int) - 8).toNat = plen - 8 := by omega
    rw [if_pos hpos, htn, recv_exactly_append body rest (plen - 8)
      (by omega)]
    have hbt : body.take (plen - 8) = body := by
      rw [← hbody]; exact List.take_length body
    have hbd : body.drop (plen - 8) = [] := by
      rw [← hbody]; exact List.drop_length body
    rw [hbt, hbd]
    simp only [List.nil_append]
    by_cases ht7 : t = 7
    · have hpd : pyDropFrom body ((hlen : Int) - 8) =
          body.drop (hlen - 8) := by
        unfold pyDropFrom
        rw [if_pos (by omega)]
        congr 1
        omega
      simp [ht7, hpd]
    · simp [ht7]
  · have hb0 : body = [] := by
      have : body.length = 0 := by omega
      exact List.eq_nil_of_length_eq_zero this
    subst hb0
    rw [if_neg (by omega : ¬ (0 : Int) < (plen : Int) - 8)]
    simp only [List.nil_append]
    by_cases ht7 : t = 7
    · simp [ht7, pyDropFrom]
    · simp [ht7]

/-- What `_receive_pdu` returns on a well-formed single-PDU stream with
a non-zero first header byte: the `hlen = plen > 8` header-only shape
returns the `hlen - 8` header-remainder bytes, C2HData returns the
bytes after the extended header, and every other type returns
`plen - hlen` bytes (leaving the `hlen - 8` header-remainder bytes
unread on the stream). -/
lemma receive_pdu_framing (t f hlen pdo p0 p1 p2 : Nat)
    (body rest : List Nat) (plen : Nat)
    (hplen : plen = p0 ||| (p1 <<< 8) ||| (p2 <<< 16))
    (ht : 0 < t) (hh8 : 8 ≤ hlen) (hhp : hlen ≤ plen)
    (hbody : body.length = plen - 8) :
    _receive_pdu ([t, f, hlen, pdo, p0, p1, p2, 0] ++ (body ++ rest)) =
      Except.ok (⟨t, f, hlen, pdo, plen⟩,
        (if hlen = plen ∧ 8 < hlen then body
         else if t = 7 then body.drop (hlen - 8)
         else body.take (plen - hlen)),
        (if hlen = plen ∧ 8 < hlen then rest
         else if t = 7 then rest
         else body.drop (plen - hlen) ++ rest)) := by
  have hrecv8 : _recv_exactly
      ([t, f, hlen, pdo, p0, p1, p2, 0] ++ (body ++ rest)) 8 =
      Except.ok ([t, f, hlen, pdo, p0, p1, p2, 0], body ++ rest) := by
    simpa using recv_exactly_append [t, f, hlen, pdo, p0, p1, p2, 0]
      (body ++ rest) 8 (by simp)
  have hunpack : unpack_pdu_header [t, f, hlen, pdo, p0, p1, p2, 0] =
      Except.ok ⟨t, f, hlen, pdo, plen⟩ := by
    unfold unpack_pdu_header
    rw [if_neg (by simp)]
    rw [hplen]
    rfl
  have hz : ([t, f, hlen, pdo, p0, p1, p2, 0] : List Nat) ≠
      List.replicate 8 0 := by
    intro h
    have := List.head_eq_of_cons_eq h
    omega
  simp only [_receive_pdu, hrecv8, hunpack, if_neg hz]
  by_cases hb1 : hlen = plen ∧ 8 < hlen
  · have e1 := recv_exactly_append body rest (hlen - 8) (by omega)
    have hbt : body.take (hlen - 8) = body := by
      rw [show hlen - 8 = body.length by omega]
      exact List.take_length body
    have hbd : body.drop (hlen - 8) = [] := by
      rw [show hlen - 8 = body.length by omega]
      exact List.drop_length body
    rw [if_pos hb1, if_pos hb1, if_pos hb1, e1, hbt, hbd]
    simp
  · rw [if_neg hb1, if_neg hb1, if_neg hb1]
    by_cases ht7 : t = 7
    · subst ht7
      by_cases hx8 : 8 < hlen
      · have hne : hlen ≠ plen := fun h => hb1 ⟨h, hx8⟩
        have hext : (0 : Int) < (hlen : Int) - 8 := by omega
        have htn : ((hlen : Int) - 8).toNat = hlen - 8 := by omega
        have e1 := recv_exactly_append body rest (hlen - 8) (by omega)
        have hlen2 : (body.drop (hlen - 8)).length = plen - hlen := by
          simp only [List.length_drop]; omega
        have hdpos : (0 : Int) < (plen : Int) - (hlen : Int) := by omega
        have hdn : ((plen : Int) - (hlen : Int)).toNat = plen - hlen := by
          omega
        have e2 := recv_exactly_append (body.drop (hlen - 8)) rest
          (plen - hlen) (by omega)
        have ht2 : (body.drop (hlen - 8)).take (plen - hlen) =
            body.drop (hlen - 8) := by
          rw [← hlen2]; exact List.take_length _
        have hd2 : (body.drop (hlen - 8)).drop (plen - hlen) = [] := by
          rw [← hlen2]; exact List.drop_length _
        simp [hext, htn, hdpos, hdn, e1, e2, ht2, hd2]
      · have hl8 : hlen = 8 := by omega
        subst hl8
        by_cases hp8 : 8 < plen
        · have h8n : ((plen : Int) - 8).toNat = plen - 8 := by omega
          have e1 := recv_exactly_append body rest (plen - 8) (by omega)
          have hbt : body.take (plen - 8) = body := by
            rw [← hbody]; exact List.take_length body
          have hbd : body.drop (plen - 8) = [] := by
            rw [← hbody]; exact List.drop_length body
          simp [hp8, h8n, e1, hbt, hbd]
        · have hb0 : body = [] := by
            have : body.length = 0 := by omega
            exact List.eq_nil_of_length_eq_zero this
          subst hb0
          simp [hp8]
    · by_cases hdl : hlen < plen
      · have hdpos : (0 : Int) < (plen : Int) - (hlen : Int) := by omega
        have hdn : ((plen : Int) - (hlen : Int)).toNat = plen - hlen := by
          omega
        have e1 := recv_exactly_append body rest (plen - hlen) (by omega)
        simp [ht7, hdpos, hdn, e1]
      · have heq : hlen = plen := by omega
        have hx8 : ¬ 8 < hlen := fun h => hb1 ⟨heq, h⟩
        have hb0 : body = [] := by
          have : body.length = 0 := by omega
          exact List.eq_nil_of_length_eq_zero this
        subst hb0
        have hnd : ¬ (0 : Int) < (plen : Int) - (hlen : Int) := by omega
        simp [ht7, hnd]

/-- Claim C8 (amended): on every well-formed incoming PDU byte stream,
both receivers return the parsed 8-byte header; the payload is, for
C2HData, the bytes following the `hlen - 8` extended-header bytes
(flags preserved in the returned header); but for every other PDU type
`_receive_pdu_on_socket` returns all `plen - 8` remaining bytes (not
`plen - hlen`), and `_receive_pdu` returns the `hlen - 8`
header-remainder bytes whenever `hlen = plen > 8` (the RSP/R2T wire
shape) and `plen - hlen` bytes otherwise. -/
theorem c8_framer_payload_slicing (t f hlen pdo p0 p1 p2 : Nat)
    (body rest : List Nat) (plen : Nat)
    (hplen : plen = p0 ||| (p1 <<< 8) ||| (p2 <<< 16))
    (ht : 0 < t) (hh8 : 8 ≤ hlen) (hhp : hlen ≤ plen)
    (hbody : body.length = plen - 8) :
    _receive_pdu_on_socket
        ([t, f, hlen, pdo, p0, p1, p2, 0] ++ (body ++ rest)) =
      Except.ok (⟨t, f, hlen, pdo, plen⟩,
        (if t = 7 then body.drop (hlen - 8) else body), rest) ∧
    _receive_pdu ([t, f, hlen, pdo, p0, p1, p2, 0] ++ (body ++ rest)) =
      Except.ok (⟨t, f, hlen, pdo, plen⟩,
        (if hlen = plen ∧ 8 < hlen then body
         else if t = 7 then body.drop (hlen - 8)
         else body.take (plen - hlen)),
        (if hlen = plen ∧ 8 < hlen then rest
         else if t = 7 then rest
         else body.drop (plen - hlen) ++ rest)) :=
  ⟨receive_pdu_on_socket_framing t f hlen pdo p0 p1 p2 body rest plen
    hplen hh8 hhp hbody,
   receive_pdu_framing t f hlen pdo p0 p1 p2 body rest plen hplen ht
    hh8 hhp hbody⟩

/-- Witness for `c8_framer_payload_slicing`: a C2HData PDU
(`type = 7, hlen = 24, plen = 40`) whose 32-byte remainder is a 16-byte
extended header followed by a 16-byte data payload. -/
theorem c8_framer_payload_slicing_witness :
    _receive_pdu_on_socket
        ([7, 4, 24, 24, 40, 0, 0, 0] ++
          (List.replicate 32 3 ++ [9, 9])) =
      Except.ok (⟨7, 4, 24, 24, 40⟩,
        (if 7 = 7 then (List.replicate 32 3).drop (24 - 8)
         else List.replicate 32 3), [9, 9]) ∧
    _receive_pdu ([7, 4, 24, 24, 40, 0, 0, 0] ++
          (List.replicate 32 3 ++ [9, 9])) =
      Except.ok (⟨7, 4, 24, 24, 40⟩,
        (if 24 = 40 ∧ 8 < 24 then List.replicate 32 3
         else if 7 = 7 then (List.replicate 32 3).drop (24 - 8)
         else (List.replicate 32 3).take (40 - 24)),
        (if 24 = 40 ∧ 8 < 24 then [9, 9]
         else if 7 = 7 then [9, 9]
         else (List.replicate 32 3).drop (40 - 24) ++ [9, 9])) :=
  c8_framer_payload_slicing 7 4 24 24 40 0 0 (List.replicate 32 3)
    [9, 9] 40 (by decide) (by decide) (by decide) (by decide) (by decide)

end NvmeoF
